import Mathlib

/-!
Shallow embedding of the R2 storage-sync subsystem of the repository
(`src/gateway/sync.ts` and `src/gateway/r2.ts`): mount coordination
(`mountR2Storage`, `isR2Mounted`), compound sync-command construction
(`buildSyncCmd`), and the blocking sync orchestrator (`syncToR2`) with its
marker-polling loop.

The sandboxed execution environment is modelled as an oracle
(`SandboxModel`): for each shell-command invocation (numbered by a running
call index) it yields either the observed logs/status or a thrown error
(`Except.error`), and likewise for the bare process launch used for the
rsync chain and for the bucket-mount primitive.  Each embedded function
additionally returns the list of externally visible events it performed
(commands run, processes launched, bucket mounts, sleeps) and the next call
index.  Thrown JavaScript values are modelled by their message string, and
JavaScript string truthiness (`undefined`/`""` are falsy) is modelled
explicitly.
-/

namespace Moltbot

/-- Modelled from the spec: the constant `R2_MOUNT_PATH` lives in
`src/config.ts`, which is not among the given source files; the spec fixes
it as the local mount root, and the repository's tests exercise it as
`/data/moltbot` (remote destination `/data/moltbot/openclaw/`). -/
def R2_MOUNT_PATH : String := "/data/moltbot"

/-- Outcome of one completed shell invocation, as observed by `runCommand`
(stdout/stderr from `getLogs`, plus the freshly fetched status). -/
structure CmdResult where
  stdout : String
  stderr : String
  status : String
deriving DecidableEq

/-- The worker environment bindings used by this subsystem.  The three
credential fields are optional strings (JS `string | undefined`). -/
structure MoltbotEnv where
  R2_ACCESS_KEY_ID : Option String
  R2_SECRET_ACCESS_KEY : Option String
  CF_ACCOUNT_ID : Option String
  bucketName : String
deriving DecidableEq

/-- JavaScript truthiness of an optional string: truthy iff present and
non-empty (`!env.X` in the source is the negation of this). -/
def truthy : Option String → Bool
  | none => false
  | some s => !s.data.isEmpty

/-- Modelled from the spec: `getR2BucketName` lives in `src/config.ts`,
which is not among the given source files; per the spec it returns the
configured bucket identifier.  Its value decides no claim; it only feeds
the bucket-mount event. -/
def getR2BucketName (env : MoltbotEnv) : String := env.bucketName

/-- Externally visible events of one run: shell commands run via
`runCommand`-style invocations, bare process launches, bucket mounts, and
poll-interval sleeps. -/
inductive Ev where
  | cmdRun (cmd : String)
  | procLaunch (cmd : String)
  | bucketMount (bucket : String) (path : String) (endpoint : String)
  | sleep (ms : Nat)
deriving DecidableEq

/-- Oracle model of the sandbox: `cmdResp n cmd` is the net outcome of the
`n`-th shell-command invocation (an `Except.error` models a throw anywhere
in its startProcess/waitForProcess/getLogs/getStatus sequence);
`launchResp n cmd` is the outcome of a bare `startProcess` launch at call
index `n`; `mountResp` is the outcome of the single `mountBucket` call. -/
structure SandboxModel where
  cmdResp : Nat → String → Except String CmdResult
  launchResp : Nat → String → Except String Unit
  mountResp : Except String Unit

/-- Substring test on character lists (JS `String.prototype.includes`). -/
def containsSub (hay needle : List Char) : Bool :=
  match hay with
  | [] => needle.isEmpty
  | _ :: t => needle.isPrefixOf hay || containsSub t needle

/-- JS `s.includes(pat)`. -/
def includes (s pat : String) : Bool := containsSub s.data pat.data

/-- JS string truthiness of a plain string: non-empty. -/
def strNonempty (s : String) : Bool := !s.data.isEmpty

/-- Drop leading whitespace characters from a character list. -/
def dropLeadingWS : List Char → List Char
  | [] => []
  | c :: cs => if c.isWhitespace then dropLeadingWS cs else c :: cs

/-- JS `String.prototype.trim` modelled as removing leading and trailing
whitespace characters (left-trim, then right-trim via reversal). -/
def jsTrim (s : String) : String :=
  ⟨((dropLeadingWS ((dropLeadingWS s.data).reverse)).reverse)⟩

/-- The regular-expression test of the source's polling loop: the regex
matches when the string begins with four digits, a hyphen, two digits, a
hyphen, and two digits. -/
def matchesDateRe (s : String) : Bool :=
  match s.data with
  | y1 :: y2 :: y3 :: y4 :: h1 :: m1 :: m2 :: h2 :: d1 :: d2 :: _ =>
      y1.isDigit && y2.isDigit && y3.isDigit && y4.isDigit && h1 == '-' &&
      m1.isDigit && m2.isDigit && h2 == '-' && d1.isDigit && d2.isDigit
  | _ => false

/-- The pattern as worded by the spec sentence behind claim C3: a date
prefix of four digits, one hyphen, and two digits. -/
def shortDatePat (s : String) : Bool :=
  match s.data with
  | y1 :: y2 :: y3 :: y4 :: h1 :: m1 :: m2 :: _ =>
      y1.isDigit && y2.isDigit && y3.isDigit && y4.isDigit && h1 == '-' &&
      m1.isDigit && m2.isDigit
  | _ => false

/-- The mount-table probe command of `isR2Mounted`. -/
def mountCheckCmd : String :=
  "mount | grep -q \"s3fs on " ++ R2_MOUNT_PATH ++ "\" && echo mounted || echo not-mounted"

/-- The primary-layout probe command. -/
def checkNewCmd : String := "test -f /root/.openclaw/openclaw.json && echo exists"

/-- The legacy-layout probe command. -/
def checkLegacyCmd : String := "test -f /root/.clawdbot/clawdbot.json && echo exists"

/-- The marker-read command of the polling loop. -/
def catCmd : String := "cat " ++ R2_MOUNT_PATH ++ "/.last-sync"

/-- Step 1 of the compound sync command: mirror the resolved config
directory to the remote config path. -/
def configMirrorStep (configDir : String) : String :=
  "rsync -r --no-times --delete --exclude='*.lock' --exclude='*.log' --exclude='*.tmp' --exclude='.git' "
    ++ configDir ++ "/ " ++ R2_MOUNT_PATH ++ "/openclaw/"

/-- Step 2: conditionally mirror the workspace directory. -/
def workspaceMirrorStep : String :=
  "([ -d /root/clawd ] && rsync -r --no-times --delete --exclude='skills' --exclude='.git' /root/clawd/ "
    ++ R2_MOUNT_PATH ++ "/workspace/ || true)"

/-- Step 3: conditionally mirror the skills subdirectory. -/
def skillsMirrorStep : String :=
  "([ -d /root/clawd/skills ] && rsync -r --no-times --delete /root/clawd/skills/ "
    ++ R2_MOUNT_PATH ++ "/skills/ || true)"

/-- Step 4: write the current timestamp to the completion marker file. -/
def markerWriteStep : String :=
  "date -Iseconds > " ++ R2_MOUNT_PATH ++ "/.last-sync"

/-- The four steps of the compound sync command, in source order. -/
def syncSteps (configDir : String) : List String :=
  [configMirrorStep configDir, workspaceMirrorStep, skillsMirrorStep, markerWriteStep]

/-- `buildSyncCmd`: the four steps joined by logical AND. -/
def buildSyncCmd (configDir : String) : String :=
  String.intercalate " && " (syncSteps configDir)

/-- Executed prefix of an `&&`-joined step chain: a step runs exactly when
every earlier step ran and succeeded (`exec` gives each step's success).
Returns the list of steps that were executed. -/
def runAndChain (exec : String → Bool) : List String → List String
  | [] => []
  | s :: rest => s :: (if exec s then runAndChain exec rest else [])

/-- `runCommand`: start a shell command, wait up to `timeoutMs`, collect
logs and fresh status.  The oracle gives the net outcome of that whole
sequence; the `timeoutMs` bound does not alter the observed outcome. -/
def runCommand (sb : SandboxModel) (n : Nat) (cmd : String) (_timeoutMs : Nat) :
    Except String CmdResult × List Ev × Nat :=
  (sb.cmdResp n cmd, [Ev.cmdRun cmd], n + 1)

/-- `isR2Mounted`: probe the mount table; mounted iff stdout is truthy,
contains "mounted" and does not contain "not-mounted".  A thrown error is
caught and reported as not mounted. -/
def isR2Mounted (sb : SandboxModel) (n : Nat) : Bool × List Ev × Nat :=
  match sb.cmdResp n mountCheckCmd with
  | .ok logs =>
      (strNonempty logs.stdout && includes logs.stdout "mounted" &&
         !(includes logs.stdout "not-mounted"),
       [Ev.cmdRun mountCheckCmd], n + 1)
  | .error _ => (false, [Ev.cmdRun mountCheckCmd], n + 1)

/-- The event of invoking the mount primitive: bucket name, fixed local
path, and the endpoint URL derived from the account identifier. -/
def mountEv (env : MoltbotEnv) : Ev :=
  Ev.bucketMount (getR2BucketName env) R2_MOUNT_PATH
    ("https://" ++ env.CF_ACCOUNT_ID.getD "" ++ ".r2.cloudflarestorage.com")

/-- `mountR2Storage`: if any credential is missing, return false with no
side effects; if the mount table already shows mounted, return true;
otherwise invoke `mountBucket`, and on a thrown error re-run the mount
check once, returning its verdict.  No error propagates. -/
def mountR2Storage (sb : SandboxModel) (env : MoltbotEnv) (n : Nat) :
    Bool × List Ev × Nat :=
  if !truthy env.R2_ACCESS_KEY_ID || !truthy env.R2_SECRET_ACCESS_KEY ||
      !truthy env.CF_ACCOUNT_ID then
    (false, [], n)
  else
    let (m1, t1, n1) := isR2Mounted sb n
    if m1 then (true, t1, n1)
    else
      match sb.mountResp with
      | .ok _ => (true, t1 ++ [mountEv env], n1)
      | .error _ =>
          let (m2, t2, n2) := isR2Mounted sb n1
          (m2, t1 ++ mountEv env :: t2, n2)

/-- The terminal outcome of one blocking sync attempt. -/
structure SyncResult where
  success : Bool
  lastSync : Option String
  error : Option String
  details : Option String
deriving DecidableEq

/-- The polling loop of `syncToR2`: up to `fuel` attempts, each sleeping
`pollIntervalMs` and then reading the marker file; a read whose trimmed
stdout is truthy and matches the date regex succeeds immediately; a thrown
read error is swallowed and polling continues. -/
def pollForMarker (sb : SandboxModel) (pollIntervalMs : Nat) :
    Nat → Nat → Option String × List Ev × Nat
  | n, 0 => (none, [], n)
  | n, fuel + 1 =>
    let (r, tc, n1) := runCommand sb n catCmd 10000
    let evs := Ev.sleep pollIntervalMs :: tc
    match r with
    | .ok ts =>
        let lastSync := jsTrim ts.stdout
        if strNonempty lastSync && matchesDateRe lastSync then
          (some lastSync, evs, n1)
        else
          let (res, t2, n2) := pollForMarker sb pollIntervalMs n1 fuel
          (res, evs ++ t2, n2)
    | .error _ =>
        let (res, t2, n2) := pollForMarker sb pollIntervalMs n1 fuel
        (res, evs ++ t2, n2)

/-- The tail of `syncToR2` after layout discovery: launch the compound
command (a thrown launch error becomes the structured "Sync error"
result), then poll for the marker; `none` from the poll loop becomes the
structured "Sync timed out" result. -/
def launchAndPoll (sb : SandboxModel) (configDir : String) (t0 : List Ev)
    (n pollIntervalMs maxPolls : Nat) : SyncResult × List Ev × Nat :=
  let syncCmd := buildSyncCmd configDir
  match sb.launchResp n syncCmd with
  | .error e =>
      (⟨false, none, some "Sync error", some e⟩,
       t0 ++ [Ev.procLaunch syncCmd], n + 1)
  | .ok _ =>
      let (res, tp, n2) := pollForMarker sb pollIntervalMs (n + 1) maxPolls
      match res with
      | some v =>
          (⟨true, some v, none, none⟩, t0 ++ Ev.procLaunch syncCmd :: tp, n2)
      | none =>
          (⟨false, none, some "Sync timed out",
             some "Timestamp file not created within 3 minutes"⟩,
           t0 ++ Ev.procLaunch syncCmd :: tp, n2)

/-- `syncToR2`: the blocking sync orchestrator.  Checks configuration,
mounts R2, probes the primary then the legacy config layout (a thrown
probe error becomes the structured "Failed to verify source files"
result), then launches the compound command and polls for the marker.
The source defaults are `pollIntervalMs = 2000`, `maxPolls = 90`. -/
def syncToR2 (sb : SandboxModel) (env : MoltbotEnv)
    (pollIntervalMs : Nat) (maxPolls : Nat) : SyncResult × List Ev × Nat :=
  if !truthy env.R2_ACCESS_KEY_ID || !truthy env.R2_SECRET_ACCESS_KEY ||
      !truthy env.CF_ACCOUNT_ID then
    (⟨false, none, some "R2 storage is not configured", none⟩, [], 0)
  else
    let (mounted, tm, n1) := mountR2Storage sb env 0
    if !mounted then
      (⟨false, none, some "Failed to mount R2 storage", none⟩, tm, n1)
    else
      let (r1, t1, n2) := runCommand sb n1 checkNewCmd 5000
      match r1 with
      | .error e =>
          (⟨false, none, some "Failed to verify source files", some e⟩,
           tm ++ t1, n2)
      | .ok checkNew =>
        if includes checkNew.stdout "exists" then
          launchAndPoll sb "/root/.openclaw" (tm ++ t1) n2 pollIntervalMs maxPolls
        else
          let (r2, t2, n3) := runCommand sb n2 checkLegacyCmd 5000
          match r2 with
          | .error e =>
              (⟨false, none, some "Failed to verify source files", some e⟩,
               tm ++ t1 ++ t2, n3)
          | .ok checkLegacy =>
            if includes checkLegacy.stdout "exists" then
              launchAndPoll sb "/root/.clawdbot" (tm ++ t1 ++ t2) n3
                pollIntervalMs maxPolls
            else
              (⟨false, none, some "Sync aborted: no config file found",
                 some "Neither openclaw.json nor clawdbot.json found in config directory."⟩,
               tm ++ t1 ++ t2, n3)

/-- Number of sleep events in a trace (each stands for one elapsed poll
interval). -/
def sleepCount : List Ev → Nat
  | [] => 0
  | Ev.sleep _ :: t => sleepCount t + 1
  | _ :: t => sleepCount t

/-- All three credentials present (truthy). -/
def envConfigured (env : MoltbotEnv) : Bool :=
  truthy env.R2_ACCESS_KEY_ID && truthy env.R2_SECRET_ACCESS_KEY &&
    truthy env.CF_ACCOUNT_ID

/-- A completed probe response whose stdout contains the sentinel
"exists". -/
def respHasSentinel : Except String CmdResult → Bool
  | .ok r => includes r.stdout "exists"
  | .error _ => false

/-- A poll response that the loop treats as "not yet": either a thrown
read error, or a completed read whose trimmed stdout fails the truthiness
or date-pattern test. -/
def pollMissB : Except String CmdResult → Bool
  | .ok ts => !(strNonempty (jsTrim ts.stdout) && matchesDateRe (jsTrim ts.stdout))
  | .error _ => true

/-- A poll response that the loop treats as success, with trimmed value
`v`. -/
def pollHitP (e : Except String CmdResult) (v : String) : Prop :=
  ∃ ts, e = Except.ok ts ∧ jsTrim ts.stdout = v ∧
    (strNonempty v && matchesDateRe v) = true

/-- Layout discovery starting at call index `n1` resolves config directory
`d`, with the launch happening at call index `nL`: either the primary
probe reports the sentinel, or it completes without it and the legacy
probe reports the sentinel. -/
def layoutAt (sb : SandboxModel) (n1 : Nat) (d : String) (nL : Nat) : Prop :=
  (respHasSentinel (sb.cmdResp n1 checkNewCmd) = true ∧ d = "/root/.openclaw" ∧
     nL = n1 + 1) ∨
  ((∃ r, sb.cmdResp n1 checkNewCmd = Except.ok r ∧ includes r.stdout "exists" = false) ∧
     respHasSentinel (sb.cmdResp (n1 + 1) checkLegacyCmd) = true ∧
     d = "/root/.clawdbot" ∧ nL = n1 + 2)

/-- A completed command outcome with the given stdout. -/
def okOut (s : String) : Except String CmdResult :=
  Except.ok ⟨s, "", "completed"⟩

/-- Fully configured environment for concrete runs. -/
def envFull : MoltbotEnv := ⟨some "key", some "secret", some "acct", "bucket"⟩

/-- Environment with the access key missing. -/
def envNoKey : MoltbotEnv := ⟨none, some "secret", some "acct", "bucket"⟩

/-- Sandbox oracle whose every primitive throws. -/
def sbIdle : SandboxModel :=
  ⟨fun _ _ => Except.error "down", fun _ _ => Except.error "down", Except.error "down"⟩

/-- Command oracle for the re-mount scenario: the first mount check reports
not mounted, every later check reports mounted. -/
def respRemount (n : Nat) (_cmd : String) : Except String CmdResult :=
  if n = 0 then okOut "not-mounted\n" else okOut "mounted\n"

/-- Sandbox whose mount primitive throws even though the mount ends up
established (visible from the second mount check on). -/
def sbRemount : SandboxModel :=
  ⟨respRemount, fun _ _ => Except.error "no launch",
   Except.error "mount failed: already mounted"⟩

/-- Command oracle for a run that is mounted, finds the primary layout, and
whose very first marker read returns a full timestamp. -/
def respHit1 (n : Nat) (_cmd : String) : Except String CmdResult :=
  if n = 0 then okOut "mounted\n" else if n = 1 then okOut "exists"
  else okOut "2026-01-27T12:00:00+00:00\n"

/-- Sandbox for the first-poll-success run. -/
def sbHit1 : SandboxModel := ⟨respHit1, fun _ _ => Except.ok (), Except.ok ()⟩

/-- Command oracle for a run whose first marker read (call index 3) is still
empty and whose second read (call index 4) returns a full timestamp. -/
def respHit2 (n : Nat) (_cmd : String) : Except String CmdResult :=
  if n = 0 then okOut "mounted\n" else if n = 1 then okOut "exists"
  else if n = 4 then okOut "2026-01-27T12:00:00+00:00\n" else okOut ""

/-- Sandbox for the second-poll-success run. -/
def sbHit2 : SandboxModel := ⟨respHit2, fun _ _ => Except.ok (), Except.ok ()⟩

/-- Command oracle for a run whose marker file never appears. -/
def respNoMarker (n : Nat) (_cmd : String) : Except String CmdResult :=
  if n = 0 then okOut "mounted\n" else if n = 1 then okOut "exists" else okOut ""

/-- Sandbox for the timeout run. -/
def sbNoMarker : SandboxModel := ⟨respNoMarker, fun _ _ => Except.ok (), Except.ok ()⟩

/-- Command oracle for a run whose marker file holds "1234-56": four digits,
a hyphen, and two digits, but not a full date prefix. -/
def respShortMarker (n : Nat) (_cmd : String) : Except String CmdResult :=
  if n = 0 then okOut "mounted\n" else if n = 1 then okOut "exists"
  else okOut "1234-56"

/-- Sandbox for the short-marker run. -/
def sbShortMarker : SandboxModel := ⟨respShortMarker, fun _ _ => Except.ok (), Except.ok ()⟩

/-- Command oracle for a run whose layout probes throw. -/
def respProbeThrow (n : Nat) (_cmd : String) : Except String CmdResult :=
  if n = 0 then okOut "mounted\n" else Except.error "probe failed"

/-- Sandbox for the probe-throw run. -/
def sbProbeThrow : SandboxModel := ⟨respProbeThrow, fun _ _ => Except.ok (), Except.ok ()⟩

/-- Command oracle for a run in which neither config marker file exists. -/
def respNoCfg (n : Nat) (_cmd : String) : Except String CmdResult :=
  if n = 0 then okOut "mounted\n" else okOut ""

/-- Sandbox for the no-config run. -/
def sbNoCfg : SandboxModel := ⟨respNoCfg, fun _ _ => Except.error "no launch", Except.ok ()⟩

end Moltbot

namespace Moltbot

/-- The config-mirror step starts with the rsync binary name, so it never
equals the marker-write step, whatever the config directory is. -/
theorem configMirrorStep_ne_marker (c : String) :
    configMirrorStep c ≠ markerWriteStep := by
  intro h
  have h1 : (configMirrorStep c).data.head? = some 'r' := rfl
  have h2 : markerWriteStep.data.head? = some 'd' := rfl
  rw [h, h2] at h1
  simp at h1

/-- C1: the compound sync command built by `buildSyncCmd` joins its four
steps (config mirror, conditional workspace mirror, conditional skills
mirror, timestamp-marker write) with logical AND, so that under
`&&`-chain semantics, whenever any of steps 1-3 fails, step 4 (the marker
write) is not executed. -/
theorem c1_buildSyncCmd_and_gates_marker (exec : String → Bool) (configDir : String)
    (h : ¬(exec (configMirrorStep configDir) = true ∧ exec workspaceMirrorStep = true ∧
           exec skillsMirrorStep = true)) :
    buildSyncCmd configDir = String.intercalate " && " (syncSteps configDir) ∧
    markerWriteStep ∉ runAndChain exec (syncSteps configDir) := by
  refine ⟨rfl, ?_⟩
  have hca : ¬ markerWriteStep = configMirrorStep configDir :=
    fun heq => configMirrorStep_ne_marker configDir heq.symm
  rcases Bool.eq_false_or_eq_true (exec (configMirrorStep configDir)) with h1 | h1 <;>
    rcases Bool.eq_false_or_eq_true (exec workspaceMirrorStep) with h2 | h2 <;>
      rcases Bool.eq_false_or_eq_true (exec skillsMirrorStep) with h3 | h3
  · exact absurd ⟨h1, h2, h3⟩ h
  all_goals simp [runAndChain, syncSteps, h1, h2, h3, hca] <;> decide

/-- Witness for C1 at a concrete execution in which every step fails. -/
theorem c1_buildSyncCmd_and_gates_marker_witness :
    ¬((fun _ => false) (configMirrorStep "/root/.openclaw") = true ∧
      (fun _ => false) workspaceMirrorStep = true ∧
      (fun _ => false) skillsMirrorStep = true) ∧
    (buildSyncCmd "/root/.openclaw" =
        String.intercalate " && " (syncSteps "/root/.openclaw") ∧
      markerWriteStep ∉ runAndChain (fun _ => false) (syncSteps "/root/.openclaw")) :=
  ⟨by decide, c1_buildSyncCmd_and_gates_marker (fun _ => false) "/root/.openclaw" (by decide)⟩

/-- C7: when any of the access key, secret key, or account identifier is
missing (falsy), `mountR2Storage` returns false immediately, performing no
events at all (in particular, never invoking the mount primitive) and
leaving the call index unchanged. -/
theorem c7_missing_credentials_skip_mount (sb : SandboxModel) (env : MoltbotEnv) (n : Nat)
    (h : truthy env.R2_ACCESS_KEY_ID = false ∨ truthy env.R2_SECRET_ACCESS_KEY = false ∨
         truthy env.CF_ACCOUNT_ID = false) :
    mountR2Storage sb env n = (false, [], n) := by
  unfold mountR2Storage
  rcases h with h | h | h <;> simp [h]

/-- Witness for C7: missing access key against a concrete sandbox. -/
theorem c7_missing_credentials_skip_mount_witness :
    (truthy envNoKey.R2_ACCESS_KEY_ID = false ∨
      truthy envNoKey.R2_SECRET_ACCESS_KEY = false ∨
      truthy envNoKey.CF_ACCOUNT_ID = false) ∧
    mountR2Storage sbIdle envNoKey 0 = (false, [], 0) :=
  ⟨Or.inl (by decide),
   c7_missing_credentials_skip_mount sbIdle envNoKey 0 (Or.inl (by decide))⟩

/-- The mount-table probe consumes exactly one call index. -/
theorem isR2Mounted_idx (sb : SandboxModel) (n : Nat) :
    (isR2Mounted sb n).2.2 = n + 1 := by
  unfold isR2Mounted
  cases hh : sb.cmdResp n mountCheckCmd <;> simp

/-- C8: when the mount primitive throws after an unmounted first check,
`mountR2Storage`'s verdict is exactly the verdict of the single mount-table
recheck: true when the recheck reports mounted, false when it reports
unmounted; being a total function of the oracle, no thrown error reaches
the caller. -/
theorem c8_mount_error_recheck_decides (sb : SandboxModel) (env : MoltbotEnv)
    (n : Nat) (e : String)
    (hcred : envConfigured env = true)
    (hnot : (isR2Mounted sb n).1 = false)
    (herr : sb.mountResp = Except.error e) :
    (mountR2Storage sb env n).1 = (isR2Mounted sb (n + 1)).1 := by
  obtain ⟨⟨ha, hb⟩, hc⟩ : (truthy env.R2_ACCESS_KEY_ID = true ∧
      truthy env.R2_SECRET_ACCESS_KEY = true) ∧ truthy env.CF_ACCOUNT_ID = true := by
    simpa [envConfigured, Bool.and_eq_true] using hcred
  have hidx := isR2Mounted_idx sb n
  rcases hx : isR2Mounted sb n with ⟨m1, t1, n1⟩
  rw [hx] at hnot hidx
  simp at hnot hidx
  subst hnot hidx
  unfold mountR2Storage
  rw [hx, herr]
  simp [ha, hb, hc]

/-- Witness for C8: the mount primitive throws an "already mounted"-style
error and the recheck reports mounted. -/
theorem c8_mount_error_recheck_decides_witness :
    (envConfigured envFull = true ∧ (isR2Mounted sbRemount 0).1 = false ∧
      sbRemount.mountResp = Except.error "mount failed: already mounted") ∧
    (mountR2Storage sbRemount envFull 0).1 = (isR2Mounted sbRemount 1).1 :=
  ⟨⟨by decide, by decide, rfl⟩,
   c8_mount_error_recheck_decides sbRemount envFull 0 "mount failed: already mounted"
     (by decide) (by decide) rfl⟩

end Moltbot

namespace Moltbot

/-- Sleep counting distributes over trace concatenation. -/
theorem sleepCount_append (s t : List Ev) :
    sleepCount (s ++ t) = sleepCount s + sleepCount t := by
  induction s with
  | nil => simp [sleepCount]
  | cons e s ih => cases e <;> simp [sleepCount, ih] <;> omega

/-- The four possible event traces of `mountR2Storage`: nothing, one mount
check, check plus mount call, or check plus mount call plus recheck. -/
theorem mount_trace_cases (sb : SandboxModel) (env : MoltbotEnv) (n : Nat) :
    (mountR2Storage sb env n).2.1 = [] ∨
    (mountR2Storage sb env n).2.1 = [Ev.cmdRun mountCheckCmd] ∨
    (mountR2Storage sb env n).2.1 = [Ev.cmdRun mountCheckCmd, mountEv env] ∨
    (mountR2Storage sb env n).2.1 =
      [Ev.cmdRun mountCheckCmd, mountEv env, Ev.cmdRun mountCheckCmd] := by
  unfold mountR2Storage isR2Mounted
  by_cases h : (!truthy env.R2_ACCESS_KEY_ID || !truthy env.R2_SECRET_ACCESS_KEY ||
      !truthy env.CF_ACCOUNT_ID) = true
  · simp [h]
  · rw [if_neg (by simpa using h)]
    cases h1 : sb.cmdResp n mountCheckCmd <;>
      cases h2 : sb.mountResp <;>
        simp <;>
          (try (split <;> simp)) <;>
            (try (cases h3 : sb.cmdResp (n + 1) mountCheckCmd <;> simp))

/-- Mount coordination performs no sleeps. -/
theorem mount_no_sleep (sb : SandboxModel) (env : MoltbotEnv) (n : Nat) :
    sleepCount (mountR2Storage sb env n).2.1 = 0 := by
  rcases mount_trace_cases sb env n with h | h | h | h <;> rw [h] <;>
    simp [sleepCount, mountEv]

/-- Mount coordination never launches a process. -/
theorem mount_no_launch (sb : SandboxModel) (env : MoltbotEnv) (n : Nat) (c : String) :
    Ev.procLaunch c ∉ (mountR2Storage sb env n).2.1 := by
  rcases mount_trace_cases sb env n with h | h | h | h <;> rw [h] <;> simp [mountEv]

/-- A sentinel-bearing probe response is a completed command whose stdout
contains "exists". -/
theorem respHasSentinel_elim {e : Except String CmdResult}
    (h : respHasSentinel e = true) :
    ∃ r, e = Except.ok r ∧ includes r.stdout "exists" = true := by
  cases e with
  | error e => simp [respHasSentinel] at h
  | ok r => exact ⟨r, rfl, h⟩

/-- If the first `j` marker reads miss and read `j` hits with value `v`,
the polling loop returns `v` after exactly `j + 1` sleeps, consuming
`j + 1` call indices. -/
theorem pollForMarker_hit (sb : SandboxModel) (p : Nat) :
    ∀ (fuel j n : Nat) (v : String), j < fuel →
      (∀ i, i < j → pollMissB (sb.cmdResp (n + i) catCmd) = true) →
      pollHitP (sb.cmdResp (n + j) catCmd) v →
      ∃ t, pollForMarker sb p n fuel = (some v, t, n + j + 1) ∧ sleepCount t = j + 1 := by
  intro fuel
  induction fuel with
  | zero => intro j n v hj; exact absurd hj (Nat.not_lt_zero j)
  | succ fuel ih =>
    intro j n v hj hmiss hhit
    cases j with
    | zero =>
      rw [Nat.add_zero] at hhit
      obtain ⟨ts, hts, htrim, hcond⟩ := hhit
      refine ⟨[Ev.sleep p, Ev.cmdRun catCmd], ?_, rfl⟩
      simp only [pollForMarker, runCommand]
      rw [hts]
      simp [htrim, hcond]
    | succ j' =>
      have hm0 : pollMissB (sb.cmdResp (n + 0) catCmd) = true := hmiss 0 (Nat.succ_pos j')
      rw [Nat.add_zero] at hm0
      obtain ⟨t, ht, hcnt⟩ := ih j' (n + 1) v (by omega)
        (fun i hi => by
          have := hmiss (i + 1) (by omega)
          rwa [show n + (i + 1) = n + 1 + i from by omega] at this)
        (by rwa [show n + (j' + 1) = n + 1 + j' from by omega] at hhit)
      cases hr : sb.cmdResp n catCmd with
      | error e =>
        refine ⟨Ev.sleep p :: Ev.cmdRun catCmd :: t, ?_, ?_⟩
        · simp only [pollForMarker, runCommand]
          rw [hr]
          simp [ht]
          omega
        · simp [sleepCount, hcnt]
      | ok ts =>
        have hcond : (strNonempty (jsTrim ts.stdout) && matchesDateRe (jsTrim ts.stdout)) = false := by
          cases hx : (strNonempty (jsTrim ts.stdout) && matchesDateRe (jsTrim ts.stdout)) with
          | false => rfl
          | true => rw [hr] at hm0; simp [pollMissB, hx] at hm0
        refine ⟨Ev.sleep p :: Ev.cmdRun catCmd :: t, ?_, ?_⟩
        · simp only [pollForMarker, runCommand]
          rw [hr]
          simp [hcond, ht]
          omega
        · simp [sleepCount, hcnt]

/-- If every marker read misses, the polling loop exhausts its budget,
sleeping once per attempt. -/
theorem pollForMarker_all_miss (sb : SandboxModel) (p : Nat) :
    ∀ (fuel n : Nat),
      (∀ i, i < fuel → pollMissB (sb.cmdResp (n + i) catCmd) = true) →
      ∃ t, pollForMarker sb p n fuel = (none, t, n + fuel) ∧ sleepCount t = fuel := by
  intro fuel
  induction fuel with
  | zero => intro n _; exact ⟨[], rfl, rfl⟩
  | succ fuel ih =>
    intro n hmiss
    have hm0 : pollMissB (sb.cmdResp (n + 0) catCmd) = true := hmiss 0 (Nat.succ_pos fuel)
    rw [Nat.add_zero] at hm0
    obtain ⟨t, ht, hcnt⟩ := ih (n + 1)
      (fun i hi => by
        have := hmiss (i + 1) (by omega)
        rwa [show n + (i + 1) = n + 1 + i from by omega] at this)
    cases hr : sb.cmdResp n catCmd with
    | error e =>
      refine ⟨Ev.sleep p :: Ev.cmdRun catCmd :: t, ?_, ?_⟩
      · simp only [pollForMarker, runCommand]
        rw [hr]
        simp [ht]
        omega
      · simp [sleepCount, hcnt]
    | ok ts =>
      have hcond : (strNonempty (jsTrim ts.stdout) && matchesDateRe (jsTrim ts.stdout)) = false := by
        cases hx : (strNonempty (jsTrim ts.stdout) && matchesDateRe (jsTrim ts.stdout)) with
        | false => rfl
        | true => rw [hr] at hm0; simp [pollMissB, hx] at hm0
      refine ⟨Ev.sleep p :: Ev.cmdRun catCmd :: t, ?_, ?_⟩
      · simp only [pollForMarker, runCommand]
        rw [hr]
        simp [hcond, ht]
        omega
      · simp [sleepCount, hcnt]

/-- Any value the polling loop returns is a trimmed read that is non-empty
and matches the date regex. -/
theorem pollForMarker_some (sb : SandboxModel) (p : Nat) :
    ∀ (fuel n : Nat) (v : String), (pollForMarker sb p n fuel).1 = some v →
      strNonempty v = true ∧ matchesDateRe v = true ∧ ∃ s, v = jsTrim s := by
  intro fuel
  induction fuel with
  | zero => intro n v h; simp [pollForMarker] at h
  | succ fuel ih =>
    intro n v h
    simp only [pollForMarker, runCommand] at h
    cases hr : sb.cmdResp n catCmd with
    | error e =>
      rw [hr] at h
      exact ih (n + 1) v h
    | ok ts =>
      rw [hr] at h
      dsimp only at h
      by_cases hcond : (strNonempty (jsTrim ts.stdout) && matchesDateRe (jsTrim ts.stdout)) = true
      · rw [if_pos hcond] at h
        simp at h
        obtain ⟨h1, h2⟩ := Bool.and_eq_true_iff.mp hcond
        subst h
        exact ⟨h1, h2, ts.stdout, rfl⟩
      · rw [if_neg hcond] at h
        exact ih (n + 1) v h

/-- Launch-then-poll, success case: launch completes and the `j`-th read
hits, giving the success result after `j + 1` sleeps. -/
theorem launchAndPoll_hit (sb : SandboxModel) (d : String) (t0 : List Ev)
    (n p m j : Nat) (v : String)
    (hl : sb.launchResp n (buildSyncCmd d) = Except.ok ())
    (hj : j < m)
    (hmiss : ∀ i, i < j → pollMissB (sb.cmdResp (n + 1 + i) catCmd) = true)
    (hhit : pollHitP (sb.cmdResp (n + 1 + j) catCmd) v) :
    (launchAndPoll sb d t0 n p m).1 = ⟨true, some v, none, none⟩ ∧
    sleepCount (launchAndPoll sb d t0 n p m).2.1 = sleepCount t0 + (j + 1) := by
  obtain ⟨t, ht, hcnt⟩ := pollForMarker_hit sb p m j (n + 1) v hj hmiss hhit
  simp only [launchAndPoll]
  rw [hl, ht]
  refine ⟨rfl, ?_⟩
  simp [sleepCount_append, sleepCount, hcnt]

/-- Launch-then-poll, timeout case: launch completes but every read misses,
giving the timeout result after `m` sleeps. -/
theorem launchAndPoll_timeout (sb : SandboxModel) (d : String) (t0 : List Ev)
    (n p m : Nat)
    (hl : sb.launchResp n (buildSyncCmd d) = Except.ok ())
    (hmiss : ∀ i, i < m → pollMissB (sb.cmdResp (n + 1 + i) catCmd) = true) :
    (launchAndPoll sb d t0 n p m).1 =
      ⟨false, none, some "Sync timed out",
        some "Timestamp file not created within 3 minutes"⟩ ∧
    sleepCount (launchAndPoll sb d t0 n p m).2.1 = sleepCount t0 + m := by
  obtain ⟨t, ht, hcnt⟩ := pollForMarker_all_miss sb p m (n + 1) hmiss
  simp only [launchAndPoll]
  rw [hl, ht]
  refine ⟨rfl, ?_⟩
  simp [sleepCount_append, sleepCount, hcnt]

/-- Launch-then-poll always ends in a structured result: success with a
validated marker value, or a structured "Sync error"/"Sync timed out". -/
theorem launchAndPoll_cases (sb : SandboxModel) (d : String) (t0 : List Ev)
    (n p m : Nat) :
    ((launchAndPoll sb d t0 n p m).1.success = true ∧
      (launchAndPoll sb d t0 n p m).1.error = none ∧
      (launchAndPoll sb d t0 n p m).1.details = none ∧
      ∃ v, (launchAndPoll sb d t0 n p m).1.lastSync = some v ∧
        strNonempty v = true ∧ matchesDateRe v = true ∧ ∃ s, v = jsTrim s) ∨
    ((launchAndPoll sb d t0 n p m).1.success = false ∧
      (launchAndPoll sb d t0 n p m).1.lastSync = none ∧
      ∃ e, (launchAndPoll sb d t0 n p m).1.error = some e ∧
        (e = "Sync error" ∨ e = "Sync timed out")) := by
  simp only [launchAndPoll]
  cases hl : sb.launchResp n (buildSyncCmd d) with
  | error e =>
    right
    dsimp only
    exact ⟨rfl, rfl, "Sync error", rfl, Or.inl rfl⟩
  | ok u =>
    dsimp only
    rcases hq : pollForMarker sb p (n + 1) m with ⟨res, tp, n2⟩
    cases res with
    | none =>
      right
      dsimp only
      exact ⟨rfl, rfl, "Sync timed out", rfl, Or.inr rfl⟩
    | some v =>
      left
      dsimp only
      have hv := pollForMarker_some sb p m (n + 1) v (by rw [hq])
      exact ⟨rfl, rfl, rfl, v, rfl, hv⟩

/-- Exhaustive characterization of every blocking-sync outcome: either a
success carrying a validated marker value, or one of the six structured
failure results. -/
theorem syncToR2_result_cases (sb : SandboxModel) (env : MoltbotEnv) (p m : Nat) :
    ((syncToR2 sb env p m).1.success = true ∧
      (syncToR2 sb env p m).1.error = none ∧
      ∃ v, (syncToR2 sb env p m).1.lastSync = some v ∧
        strNonempty v = true ∧ matchesDateRe v = true ∧ ∃ s, v = jsTrim s) ∨
    ((syncToR2 sb env p m).1.success = false ∧
      (syncToR2 sb env p m).1.lastSync = none ∧
      ∃ e, (syncToR2 sb env p m).1.error = some e ∧
        (e = "R2 storage is not configured" ∨ e = "Failed to mount R2 storage" ∨
         e = "Failed to verify source files" ∨
         e = "Sync aborted: no config file found" ∨
         e = "Sync error" ∨ e = "Sync timed out")) := by
  unfold syncToR2
  by_cases hcred : (!truthy env.R2_ACCESS_KEY_ID || !truthy env.R2_SECRET_ACCESS_KEY ||
      !truthy env.CF_ACCOUNT_ID) = true
  · rw [if_pos hcred]
    right
    exact ⟨rfl, rfl, _, rfl, Or.inl rfl⟩
  · rw [if_neg hcred]
    rcases hm : mountR2Storage sb env 0 with ⟨mounted, tm, n1⟩
    cases mounted with
    | false =>
      right
      exact ⟨rfl, rfl, _, rfl, Or.inr (Or.inl rfl)⟩
    | true =>
      simp only [runCommand, Bool.not_true, Bool.false_eq_true, if_false]
      cases hr1 : sb.cmdResp n1 checkNewCmd with
      | error e =>
        right
        dsimp only
        exact ⟨rfl, rfl, "Failed to verify source files", rfl,
          Or.inr (Or.inr (Or.inl rfl))⟩
      | ok r1 =>
        dsimp only
        by_cases hinc1 : includes r1.stdout "exists" = true
        · rw [if_pos hinc1]
          rcases launchAndPoll_cases sb "/root/.openclaw" (tm ++ [Ev.cmdRun checkNewCmd])
              (n1 + 1) p m with ⟨h1, h2, h3, hv⟩ | ⟨h1, h2, e, he, hd⟩
          · exact Or.inl ⟨h1, h2, hv⟩
          · refine Or.inr ⟨h1, h2, e, he, ?_⟩
            rcases hd with hx | hx
            · exact Or.inr (Or.inr (Or.inr (Or.inr (Or.inl hx))))
            · exact Or.inr (Or.inr (Or.inr (Or.inr (Or.inr hx))))
        · rw [if_neg hinc1]
          cases hr2 : sb.cmdResp (n1 + 1) checkLegacyCmd with
          | error e =>
            right
            dsimp only
            exact ⟨rfl, rfl, "Failed to verify source files", rfl,
              Or.inr (Or.inr (Or.inl rfl))⟩
          | ok r2 =>
            dsimp only
            by_cases hinc2 : includes r2.stdout "exists" = true
            · rw [if_pos hinc2]
              rcases launchAndPoll_cases sb "/root/.clawdbot"
                  (tm ++ [Ev.cmdRun checkNewCmd] ++ [Ev.cmdRun checkLegacyCmd]) (n1 + 2) p m with
                ⟨h1, h2, h3, hv⟩ | ⟨h1, h2, e, he, hd⟩
              · exact Or.inl ⟨h1, h2, hv⟩
              · refine Or.inr ⟨h1, h2, e, he, ?_⟩
                rcases hd with hx | hx
                · exact Or.inr (Or.inr (Or.inr (Or.inr (Or.inl hx))))
                · exact Or.inr (Or.inr (Or.inr (Or.inr (Or.inr hx))))
            · rw [if_neg hinc2]
              right
              exact ⟨rfl, rfl, _, rfl, Or.inr (Or.inr (Or.inr (Or.inl rfl)))⟩

end Moltbot

namespace Moltbot

/-- Core success lemma: once sync reaches the polling phase (credentials
present, mount reported true, a layout resolved, launch completed), a first
marker hit on read `j` (zero-based) yields the success result after exactly
`j + 1` poll intervals. -/
theorem syncToR2_hit_core (sb : SandboxModel) (env : MoltbotEnv) (p m j : Nat)
    (v d : String) (tm : List Ev) (n1 nL : Nat)
    (hcred : envConfigured env = true)
    (hmount : mountR2Storage sb env 0 = (true, tm, n1))
    (hlayout : layoutAt sb n1 d nL)
    (hlaunch : sb.launchResp nL (buildSyncCmd d) = Except.ok ())
    (hj : j < m)
    (hmiss : ∀ i, i < j → pollMissB (sb.cmdResp (nL + 1 + i) catCmd) = true)
    (hhit : pollHitP (sb.cmdResp (nL + 1 + j) catCmd) v) :
    (syncToR2 sb env p m).1 = ⟨true, some v, none, none⟩ ∧
    sleepCount (syncToR2 sb env p m).2.1 = j + 1 := by
  obtain ⟨⟨ha, hb⟩, hc⟩ : (truthy env.R2_ACCESS_KEY_ID = true ∧
      truthy env.R2_SECRET_ACCESS_KEY = true) ∧ truthy env.CF_ACCOUNT_ID = true := by
    simpa [envConfigured, Bool.and_eq_true] using hcred
  have htm : sleepCount tm = 0 := by
    have := mount_no_sleep sb env 0
    rw [hmount] at this
    simpa using this
  unfold syncToR2
  rw [hmount]
  simp only [ha, hb, hc, Bool.not_true, Bool.or_self, Bool.false_or, Bool.or_false,
    Bool.not_false, Bool.false_eq_true, if_false]
  rcases hlayout with ⟨hsent, hd, hnL⟩ | ⟨⟨r0, hr0, hinc0⟩, hsent, hd, hnL⟩
  · subst hd hnL
    obtain ⟨r, hr, hinc⟩ := respHasSentinel_elim hsent
    simp only [runCommand]
    rw [hr]
    simp only [hinc, if_true]
    have := launchAndPoll_hit sb "/root/.openclaw" (tm ++ [Ev.cmdRun checkNewCmd])
      (n1 + 1) p m j v hlaunch hj hmiss hhit
    rcases this with ⟨h1, h2⟩
    refine ⟨h1, ?_⟩
    rw [h2, sleepCount_append]
    simp [sleepCount, htm]
  · subst hd hnL
    obtain ⟨r, hr, hinc⟩ := respHasSentinel_elim hsent
    simp only [runCommand]
    rw [hr0]
    simp only [hinc0, Bool.false_eq_true, if_false]
    rw [hr]
    simp only [hinc, if_true]
    have := launchAndPoll_hit sb "/root/.clawdbot"
      (tm ++ [Ev.cmdRun checkNewCmd] ++ [Ev.cmdRun checkLegacyCmd])
      (n1 + 2) p m j v hlaunch hj hmiss hhit
    rcases this with ⟨h1, h2⟩
    refine ⟨h1, ?_⟩
    show sleepCount (launchAndPoll sb "/root/.clawdbot"
      (tm ++ [Ev.cmdRun checkNewCmd] ++ [Ev.cmdRun checkLegacyCmd]) (n1 + 2) p m).2.1 = j + 1
    rw [h2, sleepCount_append, sleepCount_append]
    simp [sleepCount, htm]

/-- C2: in blocking mode, once sync reaches the polling phase, a marker read
on attempt `k` (1-based, `k ≤ maxPolls`) whose trimmed value matches the
date prefix makes `syncToR2` return `{success := true, lastSync := v}` with
exactly `k` poll intervals (sleeps) elapsed since polling began; earlier
attempts were misses. -/
theorem c2_blocking_poll_success_after_k_intervals (sb : SandboxModel)
    (env : MoltbotEnv) (p m k : Nat) (v d : String) (tm : List Ev) (n1 nL : Nat)
    (hcred : envConfigured env = true)
    (hmount : mountR2Storage sb env 0 = (true, tm, n1))
    (hlayout : layoutAt sb n1 d nL)
    (hlaunch : sb.launchResp nL (buildSyncCmd d) = Except.ok ())
    (hk : 1 ≤ k) (hkm : k ≤ m)
    (hmiss : ∀ i, i + 1 < k → pollMissB (sb.cmdResp (nL + 1 + i) catCmd) = true)
    (hhit : pollHitP (sb.cmdResp (nL + 1 + (k - 1)) catCmd) v) :
    (syncToR2 sb env p m).1 = ⟨true, some v, none, none⟩ ∧
    sleepCount (syncToR2 sb env p m).2.1 = k := by
  obtain ⟨j, rfl⟩ : ∃ j, k = j + 1 := ⟨k - 1, by omega⟩
  exact syncToR2_hit_core sb env p m j v d tm n1 nL hcred hmount hlayout hlaunch
    (by omega) (fun i hi => hmiss i (by omega)) (by simpa using hhit)

/-- Witness for C2: a concrete run whose first read misses and whose second
read (attempt k = 2 of maxPolls = 3) returns a timestamp. -/
theorem c2_blocking_poll_success_after_k_intervals_witness :
    (envConfigured envFull = true ∧
     mountR2Storage sbHit2 envFull 0 = (true, [Ev.cmdRun mountCheckCmd], 1) ∧
     layoutAt sbHit2 1 "/root/.openclaw" 2 ∧
     sbHit2.launchResp 2 (buildSyncCmd "/root/.openclaw") = Except.ok () ∧
     1 ≤ 2 ∧ 2 ≤ 3 ∧
     (∀ i, i + 1 < 2 → pollMissB (sbHit2.cmdResp (2 + 1 + i) catCmd) = true) ∧
     pollHitP (sbHit2.cmdResp (2 + 1 + (2 - 1)) catCmd) "2026-01-27T12:00:00+00:00") ∧
    ((syncToR2 sbHit2 envFull 5 3).1 =
        ⟨true, some "2026-01-27T12:00:00+00:00", none, none⟩ ∧
      sleepCount (syncToR2 sbHit2 envFull 5 3).2.1 = 2) := by
  have h1 : envConfigured envFull = true := by decide
  have h2 : mountR2Storage sbHit2 envFull 0 = (true, [Ev.cmdRun mountCheckCmd], 1) := by decide
  have h3 : layoutAt sbHit2 1 "/root/.openclaw" 2 := Or.inl ⟨by decide, rfl, rfl⟩
  have h4 : sbHit2.launchResp 2 (buildSyncCmd "/root/.openclaw") = Except.ok () := rfl
  have h5 : ∀ i, i + 1 < 2 → pollMissB (sbHit2.cmdResp (2 + 1 + i) catCmd) = true := by
    intro i hi
    have h0 : i = 0 := by omega
    subst h0
    decide
  have h6 : pollHitP (sbHit2.cmdResp (2 + 1 + (2 - 1)) catCmd) "2026-01-27T12:00:00+00:00" :=
    ⟨⟨"2026-01-27T12:00:00+00:00\n", "", "completed"⟩, rfl, by decide, by decide⟩
  exact ⟨⟨h1, h2, h3, h4, by omega, by omega, h5, h6⟩,
    c2_blocking_poll_success_after_k_intervals sbHit2 envFull 5 3 2
      "2026-01-27T12:00:00+00:00" "/root/.openclaw" [Ev.cmdRun mountCheckCmd] 1 2
      h1 h2 h3 h4 (by omega) (by omega) h5 h6⟩

end Moltbot

namespace Moltbot

/-- Counterexample for C3 as stated: the marker value "1234-56" is
non-empty and matches the claimed pattern (four digits, a hyphen, two
digits), the polling loop reads exactly it, yet `syncToR2` does not treat
it as success: it times out instead of returning that value. -/
theorem c3_counterexample_short_pattern_not_success :
    shortDatePat "1234-56" = true ∧ strNonempty "1234-56" = true ∧
    jsTrim "1234-56" = "1234-56" ∧
    sbShortMarker.cmdResp 3 catCmd = okOut "1234-56" ∧
    (syncToR2 sbShortMarker envFull 1 1).1 =
      ⟨false, none, some "Sync timed out",
        some "Timestamp file not created within 3 minutes"⟩ ∧
    (syncToR2 sbShortMarker envFull 1 1).1 ≠ ⟨true, some "1234-56", none, none⟩ := by
  refine ⟨by decide, by decide, by decide, rfl, by decide, by decide⟩

/-- C3 as amended: during the blocking polling loop, a marker read whose
trimmed content is non-empty and matches the full date prefix (four digits,
hyphen, two digits, hyphen, two digits) is treated as success, and
`syncToR2` returns immediately with that trimmed value as the sync
timestamp. -/
theorem c3_full_date_marker_is_success (sb : SandboxModel) (env : MoltbotEnv)
    (p m j : Nat) (v d : String) (tm : List Ev) (n1 nL : Nat)
    (hcred : envConfigured env = true)
    (hmount : mountR2Storage sb env 0 = (true, tm, n1))
    (hlayout : layoutAt sb n1 d nL)
    (hlaunch : sb.launchResp nL (buildSyncCmd d) = Except.ok ())
    (hj : j < m)
    (hmiss : ∀ i, i < j → pollMissB (sb.cmdResp (nL + 1 + i) catCmd) = true)
    (hhit : pollHitP (sb.cmdResp (nL + 1 + j) catCmd) v) :
    (syncToR2 sb env p m).1 = ⟨true, some v, none, none⟩ :=
  (syncToR2_hit_core sb env p m j v d tm n1 nL hcred hmount hlayout hlaunch
    hj hmiss hhit).1

/-- Witness for the amended C3: a concrete run succeeding on its first
read with a full timestamp. -/
theorem c3_full_date_marker_is_success_witness :
    (envConfigured envFull = true ∧
     mountR2Storage sbHit1 envFull 0 = (true, [Ev.cmdRun mountCheckCmd], 1) ∧
     layoutAt sbHit1 1 "/root/.openclaw" 2 ∧
     sbHit1.launchResp 2 (buildSyncCmd "/root/.openclaw") = Except.ok () ∧
     0 < 2 ∧
     pollHitP (sbHit1.cmdResp (2 + 1 + 0) catCmd) "2026-01-27T12:00:00+00:00") ∧
    (syncToR2 sbHit1 envFull 1 2).1 =
      ⟨true, some "2026-01-27T12:00:00+00:00", none, none⟩ := by
  have h1 : envConfigured envFull = true := by decide
  have h2 : mountR2Storage sbHit1 envFull 0 = (true, [Ev.cmdRun mountCheckCmd], 1) := by decide
  have h3 : layoutAt sbHit1 1 "/root/.openclaw" 2 := Or.inl ⟨by decide, rfl, rfl⟩
  have h4 : sbHit1.launchResp 2 (buildSyncCmd "/root/.openclaw") = Except.ok () := rfl
  have h5 : ∀ i, i < 0 → pollMissB (sbHit1.cmdResp (2 + 1 + i) catCmd) = true :=
    fun i hi => absurd hi (Nat.not_lt_zero i)
  have h6 : pollHitP (sbHit1.cmdResp (2 + 1 + 0) catCmd) "2026-01-27T12:00:00+00:00" :=
    ⟨⟨"2026-01-27T12:00:00+00:00\n", "", "completed"⟩, rfl, by decide, by decide⟩
  exact ⟨⟨h1, h2, h3, h4, by omega, h6⟩,
    c3_full_date_marker_is_success sbHit1 envFull 1 2 0
      "2026-01-27T12:00:00+00:00" "/root/.openclaw" [Ev.cmdRun mountCheckCmd] 1 2
      h1 h2 h3 h4 (by omega) h5 h6⟩

/-- C4: when no marker value matching the date prefix is observed in any of
the `maxPolls` attempts, `syncToR2` returns the structured "Sync timed out"
result after exactly `maxPolls` poll intervals, and that result is distinct
from the mount-failure and launch-failure results. -/
theorem c4_poll_exhaustion_times_out (sb : SandboxModel) (env : MoltbotEnv)
    (p m : Nat) (d : String) (tm : List Ev) (n1 nL : Nat)
    (hcred : envConfigured env = true)
    (hmount : mountR2Storage sb env 0 = (true, tm, n1))
    (hlayout : layoutAt sb n1 d nL)
    (hlaunch : sb.launchResp nL (buildSyncCmd d) = Except.ok ())
    (hmiss : ∀ i, i < m → pollMissB (sb.cmdResp (nL + 1 + i) catCmd) = true) :
    (syncToR2 sb env p m).1 =
      ⟨false, none, some "Sync timed out",
        some "Timestamp file not created within 3 minutes"⟩ ∧
    sleepCount (syncToR2 sb env p m).2.1 = m ∧
    (syncToR2 sb env p m).1 ≠ ⟨false, none, some "Failed to mount R2 storage", none⟩ ∧
    (∀ e, (syncToR2 sb env p m).1 ≠ ⟨false, none, some "Sync error", some e⟩) := by
  obtain ⟨⟨ha, hb⟩, hc⟩ : (truthy env.R2_ACCESS_KEY_ID = true ∧
      truthy env.R2_SECRET_ACCESS_KEY = true) ∧ truthy env.CF_ACCOUNT_ID = true := by
    simpa [envConfigured, Bool.and_eq_true] using hcred
  have htm : sleepCount tm = 0 := by
    have := mount_no_sleep sb env 0
    rw [hmount] at this
    simpa using this
  have main : (syncToR2 sb env p m).1 =
      ⟨false, none, some "Sync timed out",
        some "Timestamp file not created within 3 minutes"⟩ ∧
      sleepCount (syncToR2 sb env p m).2.1 = m := by
    unfold syncToR2
    rw [hmount]
    simp only [ha, hb, hc, Bool.not_true, Bool.or_self, Bool.false_or, Bool.or_false,
      Bool.not_false, Bool.false_eq_true, if_false]
    rcases hlayout with ⟨hsent, hd, hnL⟩ | ⟨⟨r0, hr0, hinc0⟩, hsent, hd, hnL⟩
    · subst hd hnL
      obtain ⟨r, hr, hinc⟩ := respHasSentinel_elim hsent
      simp only [runCommand]
      rw [hr]
      simp only [hinc, if_true]
      have := launchAndPoll_timeout sb "/root/.openclaw" (tm ++ [Ev.cmdRun checkNewCmd])
        (n1 + 1) p m hlaunch hmiss
      rcases this with ⟨h1, h2⟩
      refine ⟨h1, ?_⟩
      rw [h2, sleepCount_append]
      simp [sleepCount, htm]
    · subst hd hnL
      obtain ⟨r, hr, hinc⟩ := respHasSentinel_elim hsent
      simp only [runCommand]
      rw [hr0]
      simp only [hinc0, Bool.false_eq_true, if_false]
      rw [hr]
      simp only [hinc, if_true]
      have := launchAndPoll_timeout sb "/root/.clawdbot"
        (tm ++ [Ev.cmdRun checkNewCmd] ++ [Ev.cmdRun checkLegacyCmd])
        (n1 + 2) p m hlaunch hmiss
      rcases this with ⟨h1, h2⟩
      refine ⟨h1, ?_⟩
      show sleepCount (launchAndPoll sb "/root/.clawdbot"
        (tm ++ [Ev.cmdRun checkNewCmd] ++ [Ev.cmdRun checkLegacyCmd]) (n1 + 2) p m).2.1 = m
      rw [h2, sleepCount_append, sleepCount_append]
      simp [sleepCount, htm]
  refine ⟨main.1, main.2, ?_, ?_⟩
  · rw [main.1]
    simp
  · intro e
    rw [main.1]
    simp

/-- Witness for C4: a concrete run whose marker never appears within two
polls. -/
theorem c4_poll_exhaustion_times_out_witness :
    (envConfigured envFull = true ∧
     mountR2Storage sbNoMarker envFull 0 = (true, [Ev.cmdRun mountCheckCmd], 1) ∧
     layoutAt sbNoMarker 1 "/root/.openclaw" 2 ∧
     sbNoMarker.launchResp 2 (buildSyncCmd "/root/.openclaw") = Except.ok () ∧
     (∀ i, i < 2 → pollMissB (sbNoMarker.cmdResp (2 + 1 + i) catCmd) = true)) ∧
    ((syncToR2 sbNoMarker envFull 7 2).1 =
        ⟨false, none, some "Sync timed out",
          some "Timestamp file not created within 3 minutes"⟩ ∧
      sleepCount (syncToR2 sbNoMarker envFull 7 2).2.1 = 2 ∧
      (syncToR2 sbNoMarker envFull 7 2).1 ≠
        ⟨false, none, some "Failed to mount R2 storage", none⟩ ∧
      (∀ e, (syncToR2 sbNoMarker envFull 7 2).1 ≠
        ⟨false, none, some "Sync error", some e⟩)) := by
  have h1 : envConfigured envFull = true := by decide
  have h2 : mountR2Storage sbNoMarker envFull 0 = (true, [Ev.cmdRun mountCheckCmd], 1) := by
    decide
  have h3 : layoutAt sbNoMarker 1 "/root/.openclaw" 2 := Or.inl ⟨by decide, rfl, rfl⟩
  have h4 : sbNoMarker.launchResp 2 (buildSyncCmd "/root/.openclaw") = Except.ok () := rfl
  have h5 : ∀ i, i < 2 → pollMissB (sbNoMarker.cmdResp (2 + 1 + i) catCmd) = true := by
    intro i hi
    interval_cases i <;> decide
  exact ⟨⟨h1, h2, h3, h4, h5⟩,
    c4_poll_exhaustion_times_out sbNoMarker envFull 7 2 "/root/.openclaw"
      [Ev.cmdRun mountCheckCmd] 1 2 h1 h2 h3 h4 h5⟩

end Moltbot

namespace Moltbot

/-- Counterexample for C5 as stated: when the primary-layout probe throws,
blocking sync neither continues to the legacy candidate nor reports the
"no config" outcome; it terminates with the distinct structured failure
"Failed to verify source files". -/
theorem c5_counterexample_probe_throw_is_fatal :
    sbProbeThrow.cmdResp 1 checkNewCmd = Except.error "probe failed" ∧
    (syncToR2 sbProbeThrow envFull 1 1).1 =
      ⟨false, none, some "Failed to verify source files", some "probe failed"⟩ ∧
    (syncToR2 sbProbeThrow envFull 1 1).1.error ≠
      some "Sync aborted: no config file found" ∧
    Ev.cmdRun checkLegacyCmd ∉ (syncToR2 sbProbeThrow envFull 1 1).2.1 := by
  refine ⟨rfl, by decide, by decide, by decide⟩

/-- C5 as amended: a thrown error while probing for the primary or legacy
config marker file is fatal to the blocking sync: it terminates with the
distinct structured result `{success := false, error := "Failed to verify
source files", details := thrown message}`, the copy command is never
launched, and (for a primary-probe throw) the legacy candidate is not
probed. -/
theorem c5_probe_throw_fails_verification (sb : SandboxModel) (env : MoltbotEnv)
    (p m : Nat) (tm : List Ev) (n1 : Nat) (e : String)
    (hcred : envConfigured env = true)
    (hmount : mountR2Storage sb env 0 = (true, tm, n1))
    (h : sb.cmdResp n1 checkNewCmd = Except.error e ∨
         (∃ r, sb.cmdResp n1 checkNewCmd = Except.ok r ∧
            includes r.stdout "exists" = false ∧
            sb.cmdResp (n1 + 1) checkLegacyCmd = Except.error e)) :
    (syncToR2 sb env p m).1 =
      ⟨false, none, some "Failed to verify source files", some e⟩ ∧
    (∀ c, Ev.procLaunch c ∉ (syncToR2 sb env p m).2.1) := by
  obtain ⟨⟨ha, hb⟩, hc⟩ : (truthy env.R2_ACCESS_KEY_ID = true ∧
      truthy env.R2_SECRET_ACCESS_KEY = true) ∧ truthy env.CF_ACCOUNT_ID = true := by
    simpa [envConfigured, Bool.and_eq_true] using hcred
  have hnl : ∀ c, Ev.procLaunch c ∉ tm := by
    intro c
    have := mount_no_launch sb env 0 c
    rw [hmount] at this
    simpa using this
  have step : (syncToR2 sb env p m).1 =
      ⟨false, none, some "Failed to verify source files", some e⟩ ∧
      ((syncToR2 sb env p m).2.1 = tm ++ [Ev.cmdRun checkNewCmd] ∨
       (syncToR2 sb env p m).2.1 =
         tm ++ [Ev.cmdRun checkNewCmd] ++ [Ev.cmdRun checkLegacyCmd]) := by
    unfold syncToR2
    rw [hmount]
    simp only [ha, hb, hc, Bool.not_true, Bool.or_self, Bool.false_or, Bool.or_false,
      Bool.not_false, Bool.false_eq_true, if_false]
    rcases h with he | ⟨r0, hr0, hinc0, he⟩
    · simp only [runCommand]
      rw [he]
      exact ⟨rfl, Or.inl rfl⟩
    · simp only [runCommand]
      rw [hr0]
      simp only [hinc0, Bool.false_eq_true, if_false]
      rw [he]
      exact ⟨rfl, Or.inr rfl⟩
  refine ⟨step.1, ?_⟩
  intro c
  rcases step.2 with ht | ht <;> rw [ht] <;> simp [hnl c]

/-- Witness for the amended C5: the concrete probe-throw run. -/
theorem c5_probe_throw_fails_verification_witness :
    (envConfigured envFull = true ∧
     mountR2Storage sbProbeThrow envFull 0 = (true, [Ev.cmdRun mountCheckCmd], 1) ∧
     sbProbeThrow.cmdResp 1 checkNewCmd = Except.error "probe failed") ∧
    ((syncToR2 sbProbeThrow envFull 1 1).1 =
        ⟨false, none, some "Failed to verify source files", some "probe failed"⟩ ∧
      (∀ c, Ev.procLaunch c ∉ (syncToR2 sbProbeThrow envFull 1 1).2.1)) := by
  have h1 : envConfigured envFull = true := by decide
  have h2 : mountR2Storage sbProbeThrow envFull 0 = (true, [Ev.cmdRun mountCheckCmd], 1) := by
    decide
  have h3 : sbProbeThrow.cmdResp 1 checkNewCmd = Except.error "probe failed" := rfl
  exact ⟨⟨h1, h2, h3⟩,
    c5_probe_throw_fails_verification sbProbeThrow envFull 1 1
      [Ev.cmdRun mountCheckCmd] 1 "probe failed" h1 h2 (Or.inl h3)⟩

/-- C6: layout discovery probes the primary marker before the legacy one
(the trace lists the primary probe first); when both completed probes lack
the sentinel, `syncToR2` returns the structured "Sync aborted: no config
file found" result and never launches the copy command. -/
theorem c6_both_layouts_absent_aborts (sb : SandboxModel) (env : MoltbotEnv)
    (p m : Nat) (tm : List Ev) (n1 : Nat) (r1 r2 : CmdResult)
    (hcred : envConfigured env = true)
    (hmount : mountR2Storage sb env 0 = (true, tm, n1))
    (hnew : sb.cmdResp n1 checkNewCmd = Except.ok r1)
    (hnewAbsent : includes r1.stdout "exists" = false)
    (hleg : sb.cmdResp (n1 + 1) checkLegacyCmd = Except.ok r2)
    (hlegAbsent : includes r2.stdout "exists" = false) :
    (syncToR2 sb env p m).1 =
      ⟨false, none, some "Sync aborted: no config file found",
        some "Neither openclaw.json nor clawdbot.json found in config directory."⟩ ∧
    (syncToR2 sb env p m).2.1 =
      tm ++ [Ev.cmdRun checkNewCmd, Ev.cmdRun checkLegacyCmd] ∧
    (∀ c, Ev.procLaunch c ∉ (syncToR2 sb env p m).2.1) := by
  obtain ⟨⟨ha, hb⟩, hc⟩ : (truthy env.R2_ACCESS_KEY_ID = true ∧
      truthy env.R2_SECRET_ACCESS_KEY = true) ∧ truthy env.CF_ACCOUNT_ID = true := by
    simpa [envConfigured, Bool.and_eq_true] using hcred
  have hnl : ∀ c, Ev.procLaunch c ∉ tm := by
    intro c
    have := mount_no_launch sb env 0 c
    rw [hmount] at this
    simpa using this
  have htr : (syncToR2 sb env p m).1 =
      ⟨false, none, some "Sync aborted: no config file found",
        some "Neither openclaw.json nor clawdbot.json found in config directory."⟩ ∧
      (syncToR2 sb env p m).2.1 =
        tm ++ [Ev.cmdRun checkNewCmd, Ev.cmdRun checkLegacyCmd] := by
    unfold syncToR2
    rw [hmount]
    simp only [ha, hb, hc, Bool.not_true, Bool.or_self, Bool.false_or, Bool.or_false,
      Bool.not_false, Bool.false_eq_true, if_false]
    simp only [runCommand]
    rw [hnew]
    simp only [hnewAbsent, Bool.false_eq_true, if_false]
    rw [hleg]
    simp only [hlegAbsent, Bool.false_eq_true, if_false]
    simp
  refine ⟨htr.1, htr.2, ?_⟩
  intro c
  rw [htr.2]
  simp [hnl c]

/-- Witness for C6: a concrete run in which both probes come back empty. -/
theorem c6_both_layouts_absent_aborts_witness :
    (envConfigured envFull = true ∧
     mountR2Storage sbNoCfg envFull 0 = (true, [Ev.cmdRun mountCheckCmd], 1) ∧
     sbNoCfg.cmdResp 1 checkNewCmd = Except.ok ⟨"", "", "completed"⟩ ∧
     includes "" "exists" = false ∧
     sbNoCfg.cmdResp 2 checkLegacyCmd = Except.ok ⟨"", "", "completed"⟩ ∧
     includes "" "exists" = false) ∧
    ((syncToR2 sbNoCfg envFull 1 1).1 =
        ⟨false, none, some "Sync aborted: no config file found",
          some "Neither openclaw.json nor clawdbot.json found in config directory."⟩ ∧
      (syncToR2 sbNoCfg envFull 1 1).2.1 =
        [Ev.cmdRun mountCheckCmd] ++ [Ev.cmdRun checkNewCmd, Ev.cmdRun checkLegacyCmd] ∧
      (∀ c, Ev.procLaunch c ∉ (syncToR2 sbNoCfg envFull 1 1).2.1)) := by
  have h1 : envConfigured envFull = true := by decide
  have h2 : mountR2Storage sbNoCfg envFull 0 = (true, [Ev.cmdRun mountCheckCmd], 1) := by
    decide
  have h3 : sbNoCfg.cmdResp 1 checkNewCmd = Except.ok ⟨"", "", "completed"⟩ := rfl
  have h4 : includes "" "exists" = false := by decide
  have h5 : sbNoCfg.cmdResp 2 checkLegacyCmd = Except.ok ⟨"", "", "completed"⟩ := rfl
  exact ⟨⟨h1, h2, h3, h4, h5, h4⟩,
    c6_both_layouts_absent_aborts sbNoCfg envFull 1 1 [Ev.cmdRun mountCheckCmd] 1
      ⟨"", "", "completed"⟩ ⟨"", "", "completed"⟩ h1 h2 h3 h4 h5 h4⟩

end Moltbot

namespace Moltbot

/-- A left-trimmed character list never starts with whitespace. -/
theorem dropLeadingWS_head_not_ws :
    ∀ (l : List Char) (c : Char), (dropLeadingWS l).head? = some c →
      c.isWhitespace = false := by
  intro l
  induction l with
  | nil => intro c h; simp [dropLeadingWS] at h
  | cons a t ih =>
    intro c h
    cases ha : a.isWhitespace with
    | true =>
      rw [dropLeadingWS, if_pos ha] at h
      exact ih c h
    | false =>
      rw [dropLeadingWS, if_neg (by simp [ha])] at h
      simp at h
      rw [← h]
      exact ha

/-- Left-trimming is a drop of some prefix. -/
theorem dropLeadingWS_eq_drop : ∀ l : List Char, ∃ j, dropLeadingWS l = l.drop j := by
  intro l
  induction l with
  | nil => exact ⟨0, rfl⟩
  | cons a t ih =>
    cases ha : a.isWhitespace with
    | true =>
      obtain ⟨j, hj⟩ := ih
      exact ⟨j + 1, by rw [dropLeadingWS, if_pos ha, List.drop_succ_cons, hj]⟩
    | false =>
      exact ⟨0, by rw [dropLeadingWS, if_neg (by simp [ha])]; rfl⟩

/-- Dropping a prefix keeps the last element when anything remains. -/
theorem getLast?_drop_of_ne_nil :
    ∀ (j : Nat) (l : List Char), l.drop j ≠ [] → (l.drop j).getLast? = l.getLast? := by
  intro j
  induction j with
  | zero => intro l _; rfl
  | succ j ih =>
    intro l h
    cases l with
    | nil => simp at h
    | cons a t =>
      rw [List.drop_succ_cons] at h ⊢
      rw [ih t h]
      have ht : t ≠ [] := by
        intro he
        rw [he] at h
        simp at h
      cases t with
      | nil => exact absurd rfl ht
      | cons b t' => rw [List.getLast?_cons_cons]

/-- A trimmed string never starts with whitespace. -/
theorem jsTrim_head_not_ws (s : String) (c : Char)
    (h : (jsTrim s).data.head? = some c) : c.isWhitespace = false := by
  have hdata : (jsTrim s).data =
      (dropLeadingWS ((dropLeadingWS s.data).reverse)).reverse := rfl
  rw [hdata, List.head?_reverse] at h
  obtain ⟨j, hj⟩ := dropLeadingWS_eq_drop (dropLeadingWS s.data).reverse
  rw [hj] at h
  have hne : (dropLeadingWS s.data).reverse.drop j ≠ [] := by
    intro he
    rw [he] at h
    simp at h
  rw [getLast?_drop_of_ne_nil j _ hne, List.getLast?_reverse] at h
  exact dropLeadingWS_head_not_ws s.data c h

/-- A trimmed string never ends with whitespace. -/
theorem jsTrim_last_not_ws (s : String) (c : Char)
    (h : (jsTrim s).data.getLast? = some c) : c.isWhitespace = false := by
  have hdata : (jsTrim s).data =
      (dropLeadingWS ((dropLeadingWS s.data).reverse)).reverse := rfl
  rw [hdata, List.getLast?_reverse] at h
  exact dropLeadingWS_head_not_ws (dropLeadingWS s.data).reverse c h

/-- A truthy string is not the empty string. -/
theorem strNonempty_ne_empty {s : String} (h : strNonempty s = true) : s ≠ "" := by
  intro he
  rw [he] at h
  simp [strNonempty] at h

/-- C9: for every sandbox behavior (any combination of completed commands
and thrown errors from the primitives, at every call), `syncToR2` returns
one of the structured results: a success with no error field, or one of the
six structured failure messages.  The embedding is a total function of the
oracle, so no exception escapes the orchestrator. -/
theorem c9_all_behaviors_structured_result (sb : SandboxModel) (env : MoltbotEnv)
    (p m : Nat) :
    ((syncToR2 sb env p m).1.success = true ∧ (syncToR2 sb env p m).1.error = none) ∨
    (∃ e, (syncToR2 sb env p m).1.error = some e ∧
      (e = "R2 storage is not configured" ∨ e = "Failed to mount R2 storage" ∨
       e = "Failed to verify source files" ∨
       e = "Sync aborted: no config file found" ∨
       e = "Sync error" ∨ e = "Sync timed out")) := by
  rcases syncToR2_result_cases sb env p m with ⟨h1, h2, _⟩ | ⟨h1, h2, e, he, hd⟩
  · exact Or.inl ⟨h1, h2⟩
  · exact Or.inr ⟨e, he, hd⟩

/-- C10: every `SyncResult` produced by `syncToR2` satisfies the shape
invariant: on success, `lastSync` is present, non-empty, free of leading
and trailing whitespace, begins with the full date prefix, and `error` is
absent; on failure, `error` is present and `lastSync` is absent. -/
theorem c10_sync_result_invariant (sb : SandboxModel) (env : MoltbotEnv)
    (p m : Nat) :
    ((syncToR2 sb env p m).1.success = true →
      (syncToR2 sb env p m).1.error = none ∧
      ∃ v, (syncToR2 sb env p m).1.lastSync = some v ∧ v ≠ "" ∧
        matchesDateRe v = true ∧
        (∀ c, v.data.head? = some c → c.isWhitespace = false) ∧
        (∀ c, v.data.getLast? = some c → c.isWhitespace = false)) ∧
    ((syncToR2 sb env p m).1.success = false →
      (syncToR2 sb env p m).1.lastSync = none ∧
      ∃ e, (syncToR2 sb env p m).1.error = some e) := by
  rcases syncToR2_result_cases sb env p m with
    ⟨h1, h2, v, hv, hne, hre, s, hs⟩ | ⟨h1, h2, e, he, _⟩
  · constructor
    · intro _
      subst hs
      exact ⟨h2, jsTrim s, hv, strNonempty_ne_empty hne, hre,
        fun c hc => jsTrim_head_not_ws s c hc,
        fun c hc => jsTrim_last_not_ws s c hc⟩
    · intro hfalse
      rw [h1] at hfalse
      simp at hfalse
  · constructor
    · intro htrue
      rw [h1] at htrue
      simp at htrue
    · intro _
      exact ⟨h2, e, he⟩

/-- Witness for C10 at a concrete successful run. -/
theorem c10_sync_result_invariant_witness :
    (syncToR2 sbHit1 envFull 1 2).1.success = true ∧
    ((syncToR2 sbHit1 envFull 1 2).1.error = none ∧
      ∃ v, (syncToR2 sbHit1 envFull 1 2).1.lastSync = some v ∧ v ≠ "" ∧
        matchesDateRe v = true ∧
        (∀ c, v.data.head? = some c → c.isWhitespace = false) ∧
        (∀ c, v.data.getLast? = some c → c.isWhitespace = false)) :=
  ⟨by decide, (c10_sync_result_invariant sbHit1 envFull 1 2).1 (by decide)⟩

end Moltbot
